import Mathlib

/-!
Shallow embedding of the B2B Oil & Gas supplier backend
(`src/main.py`, `src/schemas.py`) over an explicit document store.

JSON/BSON values are modelled by `Val`, documents by association lists,
the MongoDB database handle by an optional `DBState`, and each HTTP
endpoint of `src/main.py` by a Lean function from the handle (and the
request data) to an `ApiResponse`, threading the storage state where the
endpoint writes.
-/

set_option autoImplicit false

namespace OilGas

/-- JSON/BSON-style values stored in documents and returned in response
bodies.  `oid` models a MongoDB ObjectId (identified by its allocation
number). -/
inductive Val where
  | null
  | str (s : String)
  | int (n : Int)
  | arr (xs : List Val)
  | obj (fs : List (String × Val))
  | oid (n : Nat)

mutual

/-- Structural equality test on values. -/
def Val.beq : Val → Val → Bool
  | Val.null, Val.null => true
  | Val.str a, Val.str b => a == b
  | Val.int a, Val.int b => a == b
  | Val.oid a, Val.oid b => a == b
  | Val.arr xs, Val.arr ys => Val.beqList xs ys
  | Val.obj fs, Val.obj gs => Val.beqFields fs gs
  | _, _ => false

/-- Structural equality test on value lists. -/
def Val.beqList : List Val → List Val → Bool
  | [], [] => true
  | x :: xs, y :: ys => Val.beq x y && Val.beqList xs ys
  | _, _ => false

/-- Structural equality test on field lists. -/
def Val.beqFields : List (String × Val) → List (String × Val) → Bool
  | [], [] => true
  | (k, v) :: fs, (k2, v2) :: gs =>
      k == k2 && Val.beq v v2 && Val.beqFields fs gs
  | _, _ => false

end

mutual

theorem Val.beq_eq_true_iff : ∀ a b : Val, Val.beq a b = true ↔ a = b
  | a, b => by
    cases a <;> cases b <;>
      simp only [Val.beq, beq_iff_eq, Val.arr.injEq, Val.obj.injEq,
        Val.str.injEq, Val.int.injEq, Val.oid.injEq] <;>
      first
        | rfl
        | simp
        | exact Val.beqList_eq_true_iff _ _
        | exact Val.beqFields_eq_true_iff _ _

theorem Val.beqList_eq_true_iff :
    ∀ xs ys : List Val, Val.beqList xs ys = true ↔ xs = ys
  | [], [] => by simp [Val.beqList]
  | [], _ :: _ => by simp [Val.beqList]
  | _ :: _, [] => by simp [Val.beqList]
  | x :: xs, y :: ys => by
    simp [Val.beqList, Val.beq_eq_true_iff x y, Val.beqList_eq_true_iff xs ys]

theorem Val.beqFields_eq_true_iff :
    ∀ fs gs : List (String × Val), Val.beqFields fs gs = true ↔ fs = gs
  | [], [] => by simp [Val.beqFields]
  | [], _ :: _ => by simp [Val.beqFields]
  | _ :: _, [] => by simp [Val.beqFields]
  | (k, v) :: fs, (k2, v2) :: gs => by
    simp [Val.beqFields, Val.beq_eq_true_iff v v2,
      Val.beqFields_eq_true_iff fs gs, Prod.ext_iff, and_assoc]

end

instance : BEq Val := ⟨Val.beq⟩

instance : LawfulBEq Val where
  eq_of_beq h := (Val.beq_eq_true_iff _ _).mp h
  rfl := (Val.beq_eq_true_iff _ _).mpr rfl

instance : DecidableEq Val :=
  fun a b => decidable_of_iff (Val.beq a b = true) (Val.beq_eq_true_iff a b)

/-- A stored document: an ordered association list of fields, as a Python
dict of JSON values. -/
abbrev Doc := List (String × Val)

/-- First value bound to `key` in a document (Python `dict` lookup). -/
def lookupField : Doc → String → Option Val
  | [], _ => none
  | (k, v) :: rest, key => if k = key then some v else lookupField rest key

/-- Python `d[key] = v`: replace the value at `key` in place, or append the
binding when `key` is absent. -/
def setField : Doc → String → Val → Doc
  | [], key, v => [(key, v)]
  | (k, w) :: rest, key, v =>
      if k = key then (k, v) :: rest else (k, w) :: setField rest key v

/-- Python truthiness of a dict: the empty dict is falsy. -/
def docFalsy (d : Doc) : Bool := d.isEmpty

/-- The string form of an ObjectId (`str(ObjectId(...))` in Python),
modelled by the decimal form of the allocation number. -/
def oidString (n : Nat) : String := toString n

/-- Python `str(...)` on the values that can sit in an `_id` field. -/
def strOfVal : Val → String
  | Val.null => "None"
  | Val.str s => s
  | Val.int n => toString n
  | Val.oid n => oidString n
  | Val.arr _ => "<list>"
  | Val.obj _ => "<dict>"

/-- `d["_id"] = str(d.get("_id"))` as performed by the listing and detail
endpoints before returning a document. -/
def stringifyDocId (d : Doc) : Doc :=
  setField d "_id" (Val.str (strOfVal ((lookupField d "_id").getD Val.null)))

/-- The MongoDB database: a map from collection names to their documents
(in insertion order) plus the allocation counter for ObjectIds. -/
structure DBState where
  collections : String → List Doc
  nextId : Nat

/-- The database with every collection empty. -/
def emptyState : DBState := { collections := fun _ => [], nextId := 0 }

/-- Documents of collection `c` (a collection never written is empty). -/
def getColl (s : DBState) (c : String) : List Doc := s.collections c

/-- MongoDB equality filter: the document matches when every field of the
filter is present with exactly the given value. -/
def matchesFilter (filt : List (String × Val)) (d : Doc) : Bool :=
  filt.all (fun kv => lookupField d kv.1 == some kv.2)

/-- `collection.find(filter)`: all matching documents, in storage order. -/
def findDocs (docs : List Doc) (filt : List (String × Val)) : List Doc :=
  docs.filter (matchesFilter filt)

/-- `collection.find_one(filter)`: the first matching document, if any. -/
def findOne (docs : List Doc) (filt : List (String × Val)) : Option Doc :=
  (docs.filter (matchesFilter filt)).head?

/-- `collection.count_documents({})`: the number of stored documents. -/
def countDocuments (docs : List Doc) : Nat := docs.length

/-- `collection.insert_one(doc)`: assign a fresh ObjectId, store the
document (the id field first, as MongoDB returns it), and hand back the
new id. -/
def insertDoc (s : DBState) (c : String) (d : Doc) : Nat × DBState :=
  (s.nextId,
   { collections := fun c2 =>
       if c2 = c then s.collections c2 ++ [("_id", Val.oid s.nextId) :: d]
       else s.collections c2,
     nextId := s.nextId + 1 })

/-- Modelled from the spec: `create_document(collection, entity)` of
`database.py` (imported by `src/main.py` but not itself under `src/`)
"serializes the validated entity (excluding any identifier field) and
inserts it; returns the newly assigned identifier as a string".  The
caller passes the serialized entity. -/
def create_document (s : DBState) (c : String) (d : Doc) : String × DBState :=
  let r := insertDoc s c d
  (oidString r.1, r.2)

/-- Modelled from the spec: `get_documents(collection)` of `database.py`
"returns all documents" of the named collection, each later annotated
with its string identifier by the caller. -/
def get_documents (s : DBState) (c : String) : List Doc := getColl s c

/-- An HTTP response of the API layer: a success body, an
`HTTPException`-style error, or a FastAPI request-validation error
(HTTP 422, a client error). -/
inductive ApiResponse where
  | ok (body : Val)
  | httpError (status : Nat) (detail : String)
  | validationError (detail : String)
deriving DecidableEq

/-- Whether a response is a success. -/
def ApiResponse.isOk : ApiResponse → Bool
  | ApiResponse.ok _ => true
  | _ => false

/-- Whether a response is a request-validation (client) error. -/
def ApiResponse.isValidationError : ApiResponse → Bool
  | ApiResponse.validationError _ => true
  | _ => false

/-! ### Schema layer (`src/schemas.py`) -/

/-- Modelled from the spec: pydantic's `HttpUrl` well-formedness check
(library code, not under `src/`): the URL string must carry an http(s)
scheme and a nonempty host part ("for URL fields — well-formedness of
the URL string"). -/
def isValidHttpUrl (u : String) : Bool :=
  (u.data.take 7 == "http://".data && u.data.drop 7 != []) ||
  (u.data.take 8 == "https://".data && u.data.drop 8 != [])

/-- `Certification` of `src/schemas.py`. -/
structure Certification where
  name : String
  pdf_url : String
  standard : Option String
deriving DecidableEq

/-- `Product` of `src/schemas.py`. -/
structure Product where
  slug : String
  name : String
  category : String
  description : String
  image_url : String
  spec_pdf_url : String
  certifications : List Certification
  tags : List String
deriving DecidableEq

/-- `IndustrySolution` of `src/schemas.py`. -/
structure IndustrySolution where
  slug : String
  title : String
  segment : String
  problem : String
  solution : String
  related_products : List String
  content : Option String
deriving DecidableEq

/-- `CaseStudy` of `src/schemas.py`. -/
structure CaseStudy where
  slug : String
  title : String
  client : String
  location : Option String
  challenge : String
  solution : String
  outcome : String
  products_used : List String
  image_url : Option String
deriving DecidableEq

/-- `RFQ` of `src/schemas.py`. -/
structure RFQ where
  company_name : String
  contact_name : String
  email : String
  phone : Option String
  project_name : Option String
  project_description : Option String
  specifications : Option String
  product_slugs : List String
  quantity : Option Int
  timeline : Option String
  location : Option String
  notes : Option String
deriving DecidableEq

/-- Serialization of an optional string field (`None` → JSON null). -/
def optVal : Option String → Val
  | none => Val.null
  | some s => Val.str s

/-- Serialization of a `Certification` (pydantic `.dict()`), fields in
declaration order. -/
def serializeCertification (c : Certification) : Val :=
  Val.obj [("name", Val.str c.name),
           ("pdf_url", Val.str c.pdf_url),
           ("standard", optVal c.standard)]

/-- Serialization of a `Product`, fields in declaration order. -/
def serializeProduct (p : Product) : Doc :=
  [("slug", Val.str p.slug),
   ("name", Val.str p.name),
   ("category", Val.str p.category),
   ("description", Val.str p.description),
   ("image_url", Val.str p.image_url),
   ("spec_pdf_url", Val.str p.spec_pdf_url),
   ("certifications", Val.arr (p.certifications.map serializeCertification)),
   ("tags", Val.arr (p.tags.map Val.str))]

/-- Serialization of an `IndustrySolution`, fields in declaration order. -/
def serializeIndustrySolution (x : IndustrySolution) : Doc :=
  [("slug", Val.str x.slug),
   ("title", Val.str x.title),
   ("segment", Val.str x.segment),
   ("problem", Val.str x.problem),
   ("solution", Val.str x.solution),
   ("related_products", Val.arr (x.related_products.map Val.str)),
   ("content", optVal x.content)]

/-- Serialization of a `CaseStudy`, fields in declaration order. -/
def serializeCaseStudy (x : CaseStudy) : Doc :=
  [("slug", Val.str x.slug),
   ("title", Val.str x.title),
   ("client", Val.str x.client),
   ("location", optVal x.location),
   ("challenge", Val.str x.challenge),
   ("solution", Val.str x.solution),
   ("outcome", Val.str x.outcome),
   ("products_used", Val.arr (x.products_used.map Val.str)),
   ("image_url", optVal x.image_url)]

/-! ### Request-body validation (pydantic semantics over `src/schemas.py`) -/

/-- A required `str` field: present with a string value. -/
def reqStr (payload : Doc) (k : String) : Except String String :=
  match lookupField payload k with
  | some (Val.str s) => Except.ok s
  | some _ => Except.error (k ++ ": value is not a valid string")
  | none => Except.error (k ++ ": field required")

/-- An `Optional[str]` field defaulting to `None`. -/
def optStr (payload : Doc) (k : String) : Except String (Option String) :=
  match lookupField payload k with
  | none => Except.ok none
  | some Val.null => Except.ok none
  | some (Val.str s) => Except.ok (some s)
  | some _ => Except.error (k ++ ": value is not a valid string")

/-- A required `HttpUrl` field: a string passing the URL check. -/
def reqUrl (payload : Doc) (k : String) : Except String String := do
  let s ← reqStr payload k
  if isValidHttpUrl s then Except.ok s
  else Except.error (k ++ ": invalid or missing URL scheme")

/-- Elementwise validation of a `List[str]` value. -/
def strListVals (k : String) : List Val → Except String (List String)
  | [] => Except.ok []
  | Val.str s :: vs =>
      match strListVals k vs with
      | Except.ok ss => Except.ok (s :: ss)
      | Except.error e => Except.error e
  | _ :: _ => Except.error (k ++ ": value is not a valid string")

/-- A `List[str]` field with `default_factory=list`. -/
def optStrList (payload : Doc) (k : String) : Except String (List String) :=
  match lookupField payload k with
  | none => Except.ok []
  | some (Val.arr vs) => strListVals k vs
  | some _ => Except.error (k ++ ": value is not a valid list")

/-- Validation of one `Certification` object of a product payload. -/
def validateCertification (v : Val) : Except String Certification :=
  match v with
  | Val.obj fs => do
      let nm ← reqStr fs "name"
      let url ← reqUrl fs "pdf_url"
      let std ← optStr fs "standard"
      Except.ok (Certification.mk nm url std)
  | _ => Except.error "certifications: value is not a valid dict"

/-- Elementwise validation of a `List[Certification]` value. -/
def certListVals : List Val → Except String (List Certification)
  | [] => Except.ok []
  | v :: vs =>
      match validateCertification v, certListVals vs with
      | Except.ok c, Except.ok cs => Except.ok (c :: cs)
      | Except.error e, _ => Except.error e
      | _, Except.error e => Except.error e

/-- The `certifications` field with `default_factory=list`. -/
def optCertList (payload : Doc) : Except String (List Certification) :=
  match lookupField payload "certifications" with
  | none => Except.ok []
  | some (Val.arr vs) => certListVals vs
  | some _ => Except.error "certifications: value is not a valid list"

/-- Validation of a `Product` payload against `src/schemas.py`. -/
def validateProduct (payload : Doc) : Except String Product := do
  let slug ← reqStr payload "slug"
  let nm ← reqStr payload "name"
  let cat ← reqStr payload "category"
  let desc ← reqStr payload "description"
  let img ← reqUrl payload "image_url"
  let spec ← reqUrl payload "spec_pdf_url"
  let certs ← optCertList payload
  let tags ← optStrList payload "tags"
  Except.ok (Product.mk slug nm cat desc img spec certs tags)

/-- The `quantity` field of `RFQ`: `Optional[int] = Field(None, ge=1)`. -/
def rfqQuantity (payload : Doc) : Except String (Option Int) :=
  match lookupField payload "quantity" with
  | none => Except.ok none
  | some Val.null => Except.ok none
  | some (Val.int n) =>
      if 1 ≤ n then Except.ok (some n)
      else Except.error "quantity: ensure this value is greater than or equal to 1"
  | some _ => Except.error "quantity: value is not a valid integer"

/-- Validation of an `RFQ` payload against `src/schemas.py`, fields in
declaration order. -/
def validateRFQ (payload : Doc) : Except String RFQ := do
  let comp ← reqStr payload "company_name"
  let contact ← reqStr payload "contact_name"
  let email ← reqStr payload "email"
  let phone ← optStr payload "phone"
  let pname ← optStr payload "project_name"
  let pdesc ← optStr payload "project_description"
  let specs ← optStr payload "specifications"
  let slugs ← optStrList payload "product_slugs"
  let qty ← rfqQuantity payload
  let timeline ← optStr payload "timeline"
  let loc ← optStr payload "location"
  let notes ← optStr payload "notes"
  Except.ok (RFQ.mk comp contact email phone pname pdesc specs slugs qty timeline loc notes)

/-- Serialization of an optional int field. -/
def optIntVal : Option Int → Val
  | none => Val.null
  | some n => Val.int n

/-- Serialization of an `RFQ`, fields in declaration order. -/
def serializeRFQ (r : RFQ) : Doc :=
  [("company_name", Val.str r.company_name),
   ("contact_name", Val.str r.contact_name),
   ("email", Val.str r.email),
   ("phone", optVal r.phone),
   ("project_name", optVal r.project_name),
   ("project_description", optVal r.project_description),
   ("specifications", optVal r.specifications),
   ("product_slugs", Val.arr (r.product_slugs.map Val.str)),
   ("quantity", optIntVal r.quantity),
   ("timeline", optVal r.timeline),
   ("location", optVal r.location),
   ("notes", optVal r.notes)]

/-! ### API layer (`src/main.py`) -/

/-- `GET /`: the liveness message. -/
def read_root : ApiResponse :=
  ApiResponse.ok (Val.obj [("message", Val.str "Oil & Gas Supplier Backend Ready")])

/-- Python truthiness of `os.getenv(...)`: unset or empty is falsy. -/
def strTruthy : Option String → Bool
  | none => false
  | some s => !(s == "")

/-- `GET /test` (`test_database` in `src/main.py`): builds the diagnostic
dict, catching any exception of `db.list_collection_names()` (the
fallible storage call, passed as an `Except`). -/
def test_database (odb : Option DBState)
    (listCollNames : Except String (List String))
    (databaseUrl : Option String) (databaseName : Option String) : Doc :=
  let response : Doc :=
    [("backend", Val.str "✅ Running"),
     ("database", Val.str "❌ Not Available"),
     ("database_url", Val.null),
     ("database_name", Val.null),
     ("connection_status", Val.str "Not Connected"),
     ("collections", Val.arr [])]
  match odb with
  | some _ =>
      let r1 := setField response "database" (Val.str "✅ Available")
      let r2 := setField r1 "database_url"
        (Val.str (if strTruthy databaseUrl then "✅ Set" else "❌ Not Set"))
      let r3 := setField r2 "database_name"
        (Val.str (if strTruthy databaseName then databaseName.getD "" else "❌ Not Set"))
      match listCollNames with
      | Except.ok colls =>
          let r4 := setField r3 "collections" (Val.arr ((colls.take 10).map Val.str))
          let r5 := setField r4 "database" (Val.str "✅ Connected & Working")
          setField r5 "connection_status" (Val.str "Connected")
      | Except.error e =>
          setField r3 "database" (Val.str ("⚠️  Connected but Error: " ++ e.take 80))
  | none => setField response "database" (Val.str "⚠️  Available but not initialized")

/-- The `GET /test` endpoint: its result rendered as an HTTP response. -/
def testEndpoint (odb : Option DBState)
    (listCollNames : Except String (List String))
    (databaseUrl : Option String) (databaseName : Option String) : ApiResponse :=
  ApiResponse.ok (Val.obj (test_database odb listCollNames databaseUrl databaseName))

/-- First demo product seeded by `POST /seed`. -/
def demoProduct1 : Product :=
  Product.mk "cryogenic-solenoid-valve-csv200" "Cryogenic Solenoid Valve CSV-200"
    "Valves"
    "High-reliability cryogenic solenoid valve for LNG applications down to -196°C."
    "https://images.unsplash.com/photo-1581091215367-59ab6d7c1b5b?q=80&w=1200&auto=format&fit=crop"
    "https://www.w3.org/WAI/ER/tests/xhtml/testfiles/resources/pdf/dummy.pdf"
    [Certification.mk "ISO 9001:2015"
       "https://www.w3.org/WAI/ER/tests/xhtml/testfiles/resources/pdf/dummy.pdf" none,
     Certification.mk "API 6D"
       "https://www.w3.org/WAI/ER/tests/xhtml/testfiles/resources/pdf/dummy.pdf" none]
    ["cryogenic", "valve", "LNG", "solenoid"]

/-- Second demo product seeded by `POST /seed`. -/
def demoProduct2 : Product :=
  Product.mk "downhole-pressure-sensor-dps50" "Downhole Pressure Sensor DPS-50"
    "Sensors"
    "High-accuracy downhole pressure sensor rated up to 20k psi for drilling ops."
    "https://images.unsplash.com/photo-1606229365485-931b9043d692?q=80&w=1200&auto=format&fit=crop"
    "https://www.w3.org/WAI/ER/tests/xhtml/testfiles/resources/pdf/dummy.pdf"
    [Certification.mk "ISO 14001"
       "https://www.w3.org/WAI/ER/tests/xhtml/testfiles/resources/pdf/dummy.pdf" none]
    ["sensor", "downhole", "pressure"]

/-- First demo industry solution seeded by `POST /seed`. -/
def demoSolution1 : IndustrySolution :=
  IndustrySolution.mk "upstream-drilling-automation" "Upstream Drilling Automation"
    "upstream"
    "Inconsistent pressure readings lead to NPT and safety risks."
    "Deploy DPS-50 sensors with real-time telemetry to improve decision-making and reduce NPT."
    ["downhole-pressure-sensor-dps50"] none

/-- Second demo industry solution seeded by `POST /seed`. -/
def demoSolution2 : IndustrySolution :=
  IndustrySolution.mk "midstream-lng-cryogenic-handling" "Midstream LNG Cryogenic Handling"
    "midstream"
    "Valve leakage at cryogenic temperatures causes loss and hazards."
    "Implement CSV-200 with certified sealing for -196°C service."
    ["cryogenic-solenoid-valve-csv200"] none

/-- Demo case study seeded by `POST /seed`. -/
def demoCaseStudy1 : CaseStudy :=
  CaseStudy.mk "lng-terminal-leak-reduction" "LNG Terminal Leak Reduction"
    "Nordic LNG Co." (some "Norway")
    "Frequent valve seat leaks during peak winter operations."
    "Retrofitted 120 units of CSV-200 with improved seal design."
    "Leak incidents reduced by 87% within first quarter; improved throughput by 6%."
    ["cryogenic-solenoid-valve-csv200"]
    (some "https://images.unsplash.com/photo-1520607162513-77705c0f0d4a?q=80&w=1200&auto=format&fit=crop")

/-- The two demo-product insertions of `POST /seed`. -/
def seedProducts (s : DBState) : DBState :=
  (create_document
    (create_document s "product" (serializeProduct demoProduct1)).2
    "product" (serializeProduct demoProduct2)).2

/-- The two demo-solution insertions of `POST /seed`. -/
def seedSolutions (s : DBState) : DBState :=
  (create_document
    (create_document s "industrysolution"
      (serializeIndustrySolution demoSolution1)).2
    "industrysolution" (serializeIndustrySolution demoSolution2)).2

/-- The demo case-study insertion of `POST /seed`. -/
def seedCases (s : DBState) : DBState :=
  (create_document s "casestudy" (serializeCaseStudy demoCaseStudy1)).2

/-- The state transformation of `POST /seed` (`seed_demo_data`): the three
collections are counted on the incoming state first, then each one that
was empty is seeded. -/
def seedState (s : DBState) : DBState :=
  let s1 := if countDocuments (getColl s "product") = 0 then seedProducts s else s
  let s2 :=
    if countDocuments (getColl s "industrysolution") = 0 then seedSolutions s1 else s1
  if countDocuments (getColl s "casestudy") = 0 then seedCases s2 else s2

/-- `POST /seed`: 500 when the handle is absent, otherwise seed and
report ok. -/
def seedEndpoint : Option DBState → ApiResponse × Option DBState
  | none => (ApiResponse.httpError 500 "Database not configured", none)
  | some s => (ApiResponse.ok (Val.obj [("status", Val.str "ok")]), some (seedState s))

/-- `GET /products` (`list_products`): `[]` when the handle is absent,
otherwise every product document with its id stringified. -/
def list_products : Option DBState → ApiResponse
  | none => ApiResponse.ok (Val.arr [])
  | some s =>
      ApiResponse.ok (Val.arr
        ((get_documents s "product").map (fun d => Val.obj (stringifyDocId d))))

/-- `GET /products/{slug}` (`get_product`): 500 when the handle is absent;
404 when `find_one` yields a falsy value; otherwise the document with its
id stringified. -/
def get_product (odb : Option DBState) (slug : String) : ApiResponse :=
  match odb with
  | none => ApiResponse.httpError 500 "Database not configured"
  | some s =>
      match findOne (getColl s "product") [("slug", Val.str slug)] with
      | none => ApiResponse.httpError 404 "Not found"
      | some d =>
          if docFalsy d then ApiResponse.httpError 404 "Not found"
          else ApiResponse.ok (Val.obj (stringifyDocId d))

/-- `GET /solutions` (`list_solutions`): `[]` when the handle is absent;
otherwise the solution documents, filtered by `{"segment": segment}`
exactly when the `segment` query parameter is truthy (present and
nonempty). -/
def list_solutions (odb : Option DBState) (segment : Option String) : ApiResponse :=
  match odb with
  | none => ApiResponse.ok (Val.arr [])
  | some s =>
      let filt : List (String × Val) :=
        match segment with
        | some seg => if seg = "" then [] else [("segment", Val.str seg)]
        | none => []
      ApiResponse.ok (Val.arr
        ((findDocs (getColl s "industrysolution") filt).map
          (fun d => Val.obj (stringifyDocId d))))

/-- `GET /case-studies` (`list_case_studies`). -/
def list_case_studies : Option DBState → ApiResponse
  | none => ApiResponse.ok (Val.arr [])
  | some s =>
      ApiResponse.ok (Val.arr
        ((findDocs (getColl s "casestudy") []).map
          (fun d => Val.obj (stringifyDocId d))))

/-- `POST /rfq` (`submit_rfq`), including FastAPI's body validation: an
invalid body is rejected with a 422 validation error before the handler
runs (storage untouched); a valid one is persisted via
`create_document`. -/
def rfqEndpoint (odb : Option DBState) (payload : Doc) : ApiResponse × Option DBState :=
  match validateRFQ payload with
  | Except.error e => (ApiResponse.validationError e, odb)
  | Except.ok r =>
      match odb with
      | none => (ApiResponse.httpError 500 "Database not configured", none)
      | some s =>
          let res := create_document s "rfq" (serializeRFQ r)
          (ApiResponse.ok (Val.obj
             [("status", Val.str "received"), ("id", Val.str res.1)]),
           some res.2)

/-- The fields of a document other than the storage identifier `_id`. -/
def fieldsExcludingId (d : Doc) : Doc := d.filter (fun kv => !(kv.1 == "_id"))

/-- An RFQ request body carrying exactly the three required fields. -/
def rfqBasePayload (c ct e : String) : Doc :=
  [("company_name", Val.str c), ("contact_name", Val.str ct), ("email", Val.str e)]

/-- The number of documents in a collection, zero when the handle is
absent. -/
def collCountOpt : Option DBState → String → Nat
  | none, _ => 0
  | some s, c => countDocuments (getColl s c)

/-- A sample valid product request body. -/
def sampleProductPayload : Doc :=
  [("slug", Val.str "csv-200"),
   ("name", Val.str "CSV-200"),
   ("category", Val.str "Valves"),
   ("description", Val.str "A valve."),
   ("image_url", Val.str "https://example.com/img.png"),
   ("spec_pdf_url", Val.str "https://example.com/spec.pdf"),
   ("certifications", Val.arr
     [Val.obj [("name", Val.str "ISO 9001"),
               ("pdf_url", Val.str "https://example.com/cert.pdf")]]),
   ("tags", Val.arr [Val.str "valve"])]

/-- The `Product` that validating `sampleProductPayload` yields. -/
def sampleProduct : Product :=
  Product.mk "csv-200" "CSV-200" "Valves" "A valve."
    "https://example.com/img.png" "https://example.com/spec.pdf"
    [Certification.mk "ISO 9001" "https://example.com/cert.pdf" none]
    ["valve"]

/-! ### Supporting lemmas -/

theorem except_bind_ok {ε α β : Type} (x : Except ε α) (f : α → Except ε β) (c : β) :
    (do let a ← x; f a) = Except.ok c ↔ ∃ a, x = Except.ok a ∧ f a = Except.ok c := by
  cases x <;> simp [Bind.bind, Except.bind]

theorem matchesFilter_single (k : String) (v : Val) (d : Doc) :
    matchesFilter [(k, v)] d = (lookupField d k == some v) := by
  simp [matchesFilter]

theorem filter_single_eq_nil {k : String} {v : Val} {docs : List Doc}
    (h : ∀ d ∈ docs, lookupField d k ≠ some v) :
    docs.filter (matchesFilter [(k, v)]) = [] := by
  rw [List.filter_eq_nil_iff]
  intro d hd
  rw [matchesFilter_single]
  simp [beq_eq_false_iff_ne.mpr (h d hd)]

theorem findDocs_nil_filter (docs : List Doc) : findDocs docs [] = docs := by
  rw [findDocs, List.filter_eq_self]
  intro d _
  rfl

theorem getColl_create_same (s : DBState) (c : String) (d : Doc) :
    getColl (create_document s c d).2 c =
      getColl s c ++ [("_id", Val.oid s.nextId) :: d] := by
  simp [create_document, insertDoc, getColl]

theorem getColl_create_other (s : DBState) (c c2 : String) (d : Doc) (h : c2 ≠ c) :
    getColl (create_document s c d).2 c2 = getColl s c2 := by
  simp [create_document, insertDoc, getColl, h]

theorem count_seedProducts_product (s : DBState) :
    countDocuments (getColl (seedProducts s) "product") =
      countDocuments (getColl s "product") + 2 := by
  simp [seedProducts, countDocuments, getColl_create_same]

theorem getColl_seedProducts_other (s : DBState) (c : String) (h : c ≠ "product") :
    getColl (seedProducts s) c = getColl s c := by
  simp [seedProducts, getColl_create_other _ _ _ _ h]

theorem count_seedSolutions_sol (s : DBState) :
    countDocuments (getColl (seedSolutions s) "industrysolution") =
      countDocuments (getColl s "industrysolution") + 2 := by
  simp [seedSolutions, countDocuments, getColl_create_same]

theorem getColl_seedSolutions_other (s : DBState) (c : String)
    (h : c ≠ "industrysolution") : getColl (seedSolutions s) c = getColl s c := by
  simp [seedSolutions, getColl_create_other _ _ _ _ h]

theorem count_seedCases_case (s : DBState) :
    countDocuments (getColl (seedCases s) "casestudy") =
      countDocuments (getColl s "casestudy") + 1 := by
  simp [seedCases, countDocuments, getColl_create_same]

theorem getColl_seedCases_other (s : DBState) (c : String) (h : c ≠ "casestudy") :
    getColl (seedCases s) c = getColl s c := by
  simp [seedCases, getColl_create_other _ _ _ _ h]

theorem findDocs_single (docs : List Doc) (k : String) (v : Val) :
    findDocs docs [(k, v)] = docs.filter (fun d => lookupField d k == some v) := by
  rw [findDocs]
  exact List.filter_congr (fun d _ => matchesFilter_single k v d)

theorem reqUrl_ok_valid {payload : Doc} {k s : String}
    (h : reqUrl payload k = Except.ok s) : isValidHttpUrl s = true := by
  rw [reqUrl] at h
  obtain ⟨t, h1, h2⟩ := (except_bind_ok _ _ _).mp h
  by_cases hv : isValidHttpUrl t = true
  · rw [if_pos hv] at h2
    exact Except.ok.inj h2 ▸ hv
  · rw [if_neg hv] at h2
    exact absurd h2 (by simp)

theorem validateCertification_ok_url {v : Val} {c : Certification}
    (h : validateCertification v = Except.ok c) : isValidHttpUrl c.pdf_url = true := by
  cases v
  case obj fs =>
    rw [validateCertification] at h
    obtain ⟨nm, h1, h⟩ := (except_bind_ok _ _ _).mp h
    obtain ⟨url, h2, h⟩ := (except_bind_ok _ _ _).mp h
    obtain ⟨std, h3, h⟩ := (except_bind_ok _ _ _).mp h
    cases h
    exact reqUrl_ok_valid h2
  all_goals simp [validateCertification] at h

theorem certListVals_ok_urls :
    ∀ (vs : List Val) (cs : List Certification), certListVals vs = Except.ok cs →
      ∀ c ∈ cs, isValidHttpUrl c.pdf_url = true
  | [], cs, h => by
      rw [certListVals] at h
      cases h
      intro c hc
      simp at hc
  | v :: vs, cs, h => by
      rw [certListVals] at h
      cases hv : validateCertification v <;> cases hrest : certListVals vs <;>
        rw [hv, hrest] at h <;> simp at h
      subst h
      intro c hc
      rcases List.mem_cons.mp hc with rfl | hc2
      · exact validateCertification_ok_url hv
      · exact certListVals_ok_urls vs _ hrest c hc2

theorem optCertList_ok_urls {payload : Doc} {cs : List Certification}
    (h : optCertList payload = Except.ok cs) :
    ∀ c ∈ cs, isValidHttpUrl c.pdf_url = true := by
  rw [optCertList] at h
  cases hl : lookupField payload "certifications" <;> rw [hl] at h
  · cases h
    intro c hc
    simp at hc
  case some v =>
    cases v <;> simp at h
    exact certListVals_ok_urls _ _ h

theorem seedState_counts_pos (s : DBState) :
    countDocuments (getColl (seedState s) "product") ≠ 0 ∧
    countDocuments (getColl (seedState s) "industrysolution") ≠ 0 ∧
    countDocuments (getColl (seedState s) "casestudy") ≠ 0 := by
  by_cases hp : countDocuments (getColl s "product") = 0 <;>
  by_cases hs : countDocuments (getColl s "industrysolution") = 0 <;>
  by_cases hc : countDocuments (getColl s "casestudy") = 0 <;>
    simp [seedState, hp, hs, hc, count_seedProducts_product, count_seedSolutions_sol,
      count_seedCases_case, getColl_seedProducts_other, getColl_seedSolutions_other,
      getColl_seedCases_other]

theorem seedState_eq_self (t : DBState)
    (hp : countDocuments (getColl t "product") ≠ 0)
    (hs : countDocuments (getColl t "industrysolution") ≠ 0)
    (hc : countDocuments (getColl t "casestudy") ≠ 0) :
    seedState t = t := by
  simp [seedState, hp, hs, hc]

/-! ### Claim theorems -/

/-- Claim C1: creating a valid `Product` in the `product` collection and then
`find_one` by its slug (the lookup `GET /products/{slug}` performs)
returns a stored document whose fields, the storage identifier excluded,
are exactly the serialized fields of the input payload — provided no
document of the collection already carried that slug (the spec leaves
slug uniqueness to the caller). -/
theorem create_then_find_one_roundtrip (s : DBState) (p : Product)
    (h : ∀ d ∈ getColl s "product", lookupField d "slug" ≠ some (Val.str p.slug)) :
    (findOne (getColl (create_document s "product" (serializeProduct p)).2 "product")
        [("slug", Val.str p.slug)]).map fieldsExcludingId =
      some (serializeProduct p) := by
  rw [findOne, getColl_create_same, List.filter_append, filter_single_eq_nil h]
  have hm : matchesFilter [("slug", Val.str p.slug)]
      (("_id", Val.oid s.nextId) :: serializeProduct p) = true := by
    rw [matchesFilter_single]
    simp [lookupField, serializeProduct]
  simp only [List.nil_append, List.filter_cons, hm, if_true, List.filter_nil,
    List.head?_cons, Option.map_some']
  simp [fieldsExcludingId, serializeProduct]

/-- Witness for C1: the round trip at the empty database and the first
demo product. -/
theorem create_then_find_one_roundtrip_witness :
    (findOne
        (getColl (create_document emptyState "product"
            (serializeProduct demoProduct1)).2 "product")
        [("slug", Val.str demoProduct1.slug)]).map fieldsExcludingId =
      some (serializeProduct demoProduct1) :=
  create_then_find_one_roundtrip emptyState demoProduct1
    (by intro d hd; simp [emptyState, getColl] at hd)

/-- Claim C2: `POST /seed` is idempotent — for every storage state (configured
or not), a second invocation leaves every collection's document count at
its value after the first invocation, because demo records are only
inserted into empty collections. -/
theorem seed_twice_counts_unchanged (odb : Option DBState) (c : String) :
    collCountOpt (seedEndpoint (seedEndpoint odb).2).2 c =
      collCountOpt (seedEndpoint odb).2 c := by
  cases odb with
  | none => rfl
  | some s =>
      have h := seedState_counts_pos s
      simp [seedEndpoint, collCountOpt,
        seedState_eq_self (seedState s) h.1 h.2.1 h.2.2]

/-- Claim C3: with storage unconfigured (no database handle), `GET /products`
returns the empty list successfully while `GET /products/{slug}` raises a
500 server error (and in particular not a 404) for every slug. -/
theorem unconfigured_products_list_empty_and_detail_500 :
    list_products none = ApiResponse.ok (Val.arr []) ∧
    (∀ slug : String,
      get_product none slug = ApiResponse.httpError 500 "Database not configured") ∧
    (∀ slug detail : String, get_product none slug ≠ ApiResponse.httpError 404 detail) :=
  ⟨rfl, fun _ => rfl, fun _ _ h => by simp [get_product] at h⟩

/-- Claim C6: with storage configured, `GET /products/{slug}` for a slug that
matches no document of the `product` collection yields the 404 error, and
in particular never a success response. -/
theorem get_product_absent_slug_404 (s : DBState) (slug : String)
    (habs : ∀ d ∈ getColl s "product", lookupField d "slug" ≠ some (Val.str slug)) :
    get_product (some s) slug = ApiResponse.httpError 404 "Not found" := by
  simp [get_product, findOne, filter_single_eq_nil habs]

/-- Witness for C6 at the empty database and slug `missing-product`. -/
theorem get_product_absent_slug_404_witness :
    get_product (some emptyState) "missing-product" =
      ApiResponse.httpError 404 "Not found" :=
  get_product_absent_slug_404 emptyState "missing-product"
    (by intro d hd; simp [emptyState, getColl] at hd)

/-- Claim C10: supplying `segment=` (the empty string) to `GET /solutions` drops
the filter entirely: every document of the `industrysolution` collection
is returned, not just those whose `segment` equals the empty string. -/
theorem list_solutions_empty_segment_returns_all (s : DBState) :
    list_solutions (some s) (some "") =
      ApiResponse.ok (Val.arr ((getColl s "industrysolution").map
        (fun d => Val.obj (stringifyDocId d)))) := by
  simp [list_solutions, findDocs_nil_filter]

/-- Claim C8: `GET /test` never propagates an error: for every state of the
database handle, every outcome (value or exception) of
`db.list_collection_names()` and every environment, the endpoint returns
a success response whose body is the diagnostic dict with its six fixed
keys and the backend marked running. -/
theorem test_endpoint_never_errors (odb : Option DBState)
    (listCollNames : Except String (List String))
    (databaseUrl databaseName : Option String) :
    (testEndpoint odb listCollNames databaseUrl databaseName).isOk = true ∧
    (test_database odb listCollNames databaseUrl databaseName).map Prod.fst =
      ["backend", "database", "database_url", "database_name",
       "connection_status", "collections"] ∧
    lookupField (test_database odb listCollNames databaseUrl databaseName) "backend" =
      some (Val.str "✅ Running") := by
  refine ⟨rfl, ?_, ?_⟩ <;>
    cases odb <;> cases listCollNames <;>
      simp [test_database, setField, lookupField]

/-- Claim C4: an RFQ body lacking the required `company_name` field is rejected
with a request-validation (client) error naming the field, and the
storage state is unchanged — no document is persisted to the `rfq`
collection. -/
theorem rfq_missing_company_name_rejected (odb : Option DBState) (payload : Doc)
    (h : lookupField payload "company_name" = none) :
    rfqEndpoint odb payload =
      (ApiResponse.validationError "company_name: field required", odb) := by
  have h1 : reqStr payload "company_name" =
      Except.error "company_name: field required" := by
    simp [reqStr, h]
  have hv : validateRFQ payload = Except.error "company_name: field required" := by
    rw [validateRFQ, h1]
    rfl
  simp only [rfqEndpoint, hv]

/-- Witness for C4 at a body carrying only `contact_name`. -/
theorem rfq_missing_company_name_rejected_witness :
    rfqEndpoint (some emptyState) [("contact_name", Val.str "Jane Doe")] =
      (ApiResponse.validationError "company_name: field required", some emptyState) :=
  rfq_missing_company_name_rejected (some emptyState)
    [("contact_name", Val.str "Jane Doe")] rfl

/-- Claim C5: RFQ validation accepts a body with `quantity` absent; with
`quantity` an integer `n` it accepts exactly when `1 ≤ n`; and at
`quantity = 0` the `/rfq` endpoint rejects with a validation error for
every storage state. -/
theorem rfq_quantity_constraint (c ct e : String) (n : Int) :
    (validateRFQ (rfqBasePayload c ct e)).isOk = true ∧
    ((validateRFQ (rfqBasePayload c ct e ++ [("quantity", Val.int n)])).isOk = true
      ↔ 1 ≤ n) ∧
    ∀ odb : Option DBState,
      (rfqEndpoint odb
        (rfqBasePayload c ct e ++ [("quantity", Val.int 0)])).1.isValidationError =
        true := by
  have key : ∀ m : Int, validateRFQ (rfqBasePayload c ct e ++ [("quantity", Val.int m)]) =
      if 1 ≤ m then
        Except.ok (RFQ.mk c ct e none none none none [] (some m) none none none)
      else Except.error "quantity: ensure this value is greater than or equal to 1" := by
    intro m
    by_cases hm : (1 : Int) ≤ m <;>
      simp [validateRFQ, rfqBasePayload, reqStr, optStr, optStrList, rfqQuantity,
        lookupField, hm, Bind.bind, Except.bind]
  refine ⟨rfl, ?_, ?_⟩
  · by_cases hn : (1 : Int) ≤ n <;> simp [key n, hn, Except.isOk, Except.toBool]
  · intro odb
    simp [rfqEndpoint, key 0, ApiResponse.isValidationError]

/-- Claim C7 counterexample: on the seeded database, `GET /solutions` with
`segment=` (the empty string) returns a non-empty list even though no
stored document's `segment` field equals the empty string — so the
response is not "exactly the documents whose segment equals the supplied
value" for every value of the parameter. -/
theorem list_solutions_empty_segment_cex :
    (∀ d ∈ getColl (seedState emptyState) "industrysolution",
        lookupField d "segment" ≠ some (Val.str "")) ∧
    list_solutions (some (seedState emptyState)) (some "") ≠
      ApiResponse.ok (Val.arr []) :=
  ⟨by decide, by decide⟩

/-- Claim C7 (amended): for every non-empty value of the `segment` query
parameter, `GET /solutions` returns exactly the documents of the
`industrysolution` collection whose `segment` field equals that value by
exact comparison; with the parameter absent, all documents are
returned. -/
theorem list_solutions_exact_segment_filter (s : DBState) (seg : String)
    (h : seg ≠ "") :
    list_solutions (some s) (some seg) =
      ApiResponse.ok (Val.arr
        (((getColl s "industrysolution").filter
            (fun d => lookupField d "segment" == some (Val.str seg))).map
          (fun d => Val.obj (stringifyDocId d)))) ∧
    list_solutions (some s) none =
      ApiResponse.ok (Val.arr ((getColl s "industrysolution").map
        (fun d => Val.obj (stringifyDocId d)))) := by
  constructor
  · simp [list_solutions, h, findDocs_single]
  · simp [list_solutions, findDocs_nil_filter]

/-- Witness for the amended C7 on the seeded database with
`segment=upstream`. -/
theorem list_solutions_exact_segment_filter_witness :
    "upstream" ≠ "" ∧
    (list_solutions (some (seedState emptyState)) (some "upstream") =
      ApiResponse.ok (Val.arr
        (((getColl (seedState emptyState) "industrysolution").filter
            (fun d => lookupField d "segment" == some (Val.str "upstream"))).map
          (fun d => Val.obj (stringifyDocId d)))) ∧
    list_solutions (some (seedState emptyState)) none =
      ApiResponse.ok (Val.arr ((getColl (seedState emptyState) "industrysolution").map
        (fun d => Val.obj (stringifyDocId d))))) :=
  ⟨by decide,
   list_solutions_exact_segment_filter (seedState emptyState) "upstream" (by decide)⟩

/-- Claim C9: schema validation accepts a `Product` payload only when its
`image_url`, `spec_pdf_url` and every certification's `pdf_url` are
well-formed URL strings; validation is a pure check performed before any
storage operation, so a violating payload is rejected with a validation
error and never reaches storage. -/
theorem validateProduct_urls_wellformed (payload : Doc) (p : Product)
    (h : validateProduct payload = Except.ok p) :
    isValidHttpUrl p.image_url = true ∧ isValidHttpUrl p.spec_pdf_url = true ∧
    ∀ c ∈ p.certifications, isValidHttpUrl c.pdf_url = true := by
  rw [validateProduct] at h
  obtain ⟨slug, h1, h⟩ := (except_bind_ok _ _ _).mp h
  obtain ⟨nm, h2, h⟩ := (except_bind_ok _ _ _).mp h
  obtain ⟨cat, h3, h⟩ := (except_bind_ok _ _ _).mp h
  obtain ⟨desc, h4, h⟩ := (except_bind_ok _ _ _).mp h
  obtain ⟨img, h5, h⟩ := (except_bind_ok _ _ _).mp h
  obtain ⟨specUrl, h6, h⟩ := (except_bind_ok _ _ _).mp h
  obtain ⟨certs, h7, h⟩ := (except_bind_ok _ _ _).mp h
  obtain ⟨tags, h8, h⟩ := (except_bind_ok _ _ _).mp h
  cases h
  exact ⟨reqUrl_ok_valid h5, reqUrl_ok_valid h6, optCertList_ok_urls h7⟩

/-- Witness for C9 at a concrete valid product payload. -/
theorem validateProduct_urls_wellformed_witness :
    validateProduct sampleProductPayload = Except.ok sampleProduct ∧
    (isValidHttpUrl sampleProduct.image_url = true ∧
     isValidHttpUrl sampleProduct.spec_pdf_url = true ∧
     ∀ c ∈ sampleProduct.certifications, isValidHttpUrl c.pdf_url = true) :=
  ⟨rfl, validateProduct_urls_wellformed sampleProductPayload sampleProduct rfl⟩

end OilGas
